import Mathlib

/-!
Shallow embedding of `pkg/csi/service/cns/nodes.go` from the vSphere CSI
driver: the datastore intersection engine (`GetSharedDatastoresForVMs`),
the topology resolver (`GetSharedDatastoresInTopology`) and the membership
listener callbacks (`nodeAdd` / `nodeDelete`).

Go slices of `*cnsvsphere.DatastoreInfo` are modelled as Lean lists of a
`DatastoreInfo` structure; a node VM handle is an opaque identifier;
the external accessor calls (`GetAllAccessibleDatastores`,
`IsInZoneRegion`, the node manager) are oracle function parameters
returning `Except` to model Go's `(value, error)` pairs.
-/

namespace VSphereCSI

/-- A datastore: identified by its URL (`Info.Url` in the source); the rest
of `DatastoreInfo` is opaque descriptive info, modelled as a payload. -/
structure DatastoreInfo where
  url : String
  payload : Nat
deriving DecidableEq, Repr

/-- A node VM handle (`*cnsvsphere.VirtualMachine`), opaque here. -/
abbrev VM := String

/-- Errors surfaced by the functions of `nodes.go`. Go returns `error`
values; we separate them by provenance so theorems can name them. -/
inductive CnsErr where
  | accessorFailed (msg : String)
  | zoneCheckFailed (msg : String)
  | noSharedDatastores (vm : VM)
  | emptyNodeList
deriving DecidableEq, Repr

/-- The inner double loop of `GetSharedDatastoresForVMs`
(nodes.go:229-241): keep each `sharedDs` of the running set whose URL
appears (by `==` on `Info.Url`) in the new node's accessible set; the Go
`break` after the first hit makes it a membership test, i.e. a filter. -/
def intersectByUrl (shared accessible : List DatastoreInfo) : List DatastoreInfo :=
  shared.filter (fun sharedDs => accessible.any (fun accessibleDs => accessibleDs.url == sharedDs.url))

/-- The loop of `GetSharedDatastoresForVMs` (nodes.go:220-245) with the
running `sharedDatastores` slice as explicit state: fetch the node's
accessible datastores (propagating accessor errors), seed the running set
from the first node (`len(sharedDatastores) == 0` branch), otherwise
intersect by URL; if the running set is then empty, fail naming the node. -/
def sharedDSLoop (acc : VM → Except String (List DatastoreInfo)) :
    List VM → List DatastoreInfo → Except CnsErr (List DatastoreInfo)
  | [], sharedDatastores => .ok sharedDatastores
  | nodeVM :: rest, sharedDatastores =>
    match acc nodeVM with
    | .error e => .error (.accessorFailed e)
    | .ok accessibleDatastores =>
      let shared2 :=
        if sharedDatastores.isEmpty then accessibleDatastores
        else intersectByUrl sharedDatastores accessibleDatastores
      if shared2.isEmpty then .error (.noSharedDatastores nodeVM)
      else sharedDSLoop acc rest shared2

/-- `GetSharedDatastoresForVMs` (nodes.go:218-247): the loop starting
from the nil `sharedDatastores` slice. -/
def GetSharedDatastoresForVMs (acc : VM → Except String (List DatastoreInfo))
    (nodeVMs : List VM) : Except CnsErr (List DatastoreInfo) :=
  sharedDSLoop acc nodeVMs []

/-! ## Topology resolver (`GetSharedDatastoresInTopology`, nodes.go:106-193) -/

/-- `csitypes.LabelZoneFailureDomain`, the key used at nodes.go:144. -/
def LabelZoneFailureDomain : String := "failure-domain.beta.kubernetes.io/zone"

/-- `csitypes.LabelRegionFailureDomain`, the key used at nodes.go:145. -/
def LabelRegionFailureDomain : String := "failure-domain.beta.kubernetes.io/region"

/-- A `*csi.Topology`: its `Segments` map, as an association list. -/
structure Topology where
  segments : List (String × String)
deriving DecidableEq, Repr

/-- Go map indexing `segments[key]`: the zero value `""` when absent. -/
def getSegment (segments : List (String × String)) (key : String) : String :=
  match segments.lookup key with
  | some v => v
  | none => ""

/-- A `*csi.TopologyRequirement`: `GetPreferred()` / `GetRequisite()` may
each be a nil slice (`none`) or a present (possibly empty) slice. -/
structure TopologyRequirement where
  preferred : Option (List Topology)
  requisite : Option (List Topology)
deriving DecidableEq, Repr

/-- One `accessibleTopology` map (nodes.go:160-166): the zone label is
inserted when `zone != ""`, then the region label when `region != ""`. -/
def mkAccessibleTopology (zone region : String) : List (String × String) :=
  (if zone ≠ "" then [(LabelZoneFailureDomain, zone)] else []) ++
    (if region ≠ "" then [(LabelRegionFailureDomain, region)] else [])

/-- `datastoreTopologyMap`, a Go `map[string][]map[string]string`, as an
association list from datastore URL to the per-URL append-ordered list of
topology segment maps. The source never iterates this map, so only lookup
and per-key append order are observable. -/
abbrev DSTopoMap := List (String × List (List (String × String)))

/-- `datastoreTopologyMap[url] = append(datastoreTopologyMap[url], t)`
(nodes.go:167): extend the existing entry, or create one. -/
def appendTopo : DSTopoMap → String → List (String × String) → DSTopoMap
  | [], url, t => [(url, [t])]
  | (k, v) :: rest, url, t =>
    if k = url then (k, v ++ [t]) :: rest else (k, v) :: appendTopo rest url t

/-- Lookup in `datastoreTopologyMap` (zero value: the empty list). -/
def lookupTopo (m : DSTopoMap) (url : String) : List (List (String × String)) :=
  match m.lookup url with
  | some v => v
  | none => []

/-- `getNodesInZoneRegion` (nodes.go:120-134): filter `allNodes` by the
`IsInZoneRegion` test `zr`, propagating the first test error. -/
def getNodesInZoneRegion (zr : VM → String → String → Except String Bool)
    (zoneValue regionValue : String) : List VM → Except String (List VM)
  | [] => .ok []
  | nodeVM :: rest =>
    match zr nodeVM zoneValue regionValue with
    | .error e => .error e
    | .ok isNodeInZoneRegion =>
      match getNodesInZoneRegion zr zoneValue regionValue rest with
      | .error e => .error e
      | .ok vms => .ok (if isNodeInZoneRegion then nodeVM :: vms else vms)

/-- The loop of the inner closure `getSharedDatastoresInTopology`
(nodes.go:142-170), with the accumulators `sharedDatastores` and
`datastoreTopologyMap` as explicit state: for each topology segment set,
read its zone and region labels, partition the nodes, intersect the
partition's datastores, record each resulting datastore's topology entry,
and append to the running result. -/
def topoLoop (acc : VM → Except String (List DatastoreInfo))
    (zr : VM → String → String → Except String Bool) (allNodes : List VM) :
    List Topology → List DatastoreInfo → DSTopoMap →
    Except CnsErr (List DatastoreInfo × DSTopoMap)
  | [], sharedDatastores, m => .ok (sharedDatastores, m)
  | topology :: rest, sharedDatastores, m =>
    let zone := getSegment topology.segments LabelZoneFailureDomain
    let region := getSegment topology.segments LabelRegionFailureDomain
    match getNodesInZoneRegion zr zone region allNodes with
    | .error e => .error (.zoneCheckFailed e)
    | .ok nodeVMsInZoneRegion =>
      match GetSharedDatastoresForVMs acc nodeVMsInZoneRegion with
      | .error e => .error e
      | .ok sharedDatastoresInZoneRegion =>
        let m2 := sharedDatastoresInZoneRegion.foldl
          (fun m ds => appendTopo m ds.url (mkAccessibleTopology zone region)) m
        topoLoop acc zr allNodes rest (sharedDatastores ++ sharedDatastoresInZoneRegion) m2

/-- The inner closure `getSharedDatastoresInTopology` (nodes.go:138-172):
the loop started on fresh accumulators. -/
def getSharedDatastoresInTopology (acc : VM → Except String (List DatastoreInfo))
    (zr : VM → String → String → Except String Bool) (allNodes : List VM)
    (topologyArr : List Topology) : Except CnsErr (List DatastoreInfo × DSTopoMap) :=
  topoLoop acc zr allNodes topologyArr [] []

/-- `GetSharedDatastoresInTopology` (nodes.go:106-193). `allNodes` is the
snapshot returned by the node manager's `GetAllNodes` (whose own error
path is outside this function's logic); the function rejects an empty
snapshot, runs the inner resolver on the preferred list when it is
non-nil, and falls back to the requisite list when the preferred pass
produced zero datastores. -/
def GetSharedDatastoresInTopology (acc : VM → Except String (List DatastoreInfo))
    (zr : VM → String → String → Except String Bool) (allNodes : List VM)
    (topologyRequirement : Option TopologyRequirement) :
    Except CnsErr (List DatastoreInfo × DSTopoMap) :=
  if allNodes.length = 0 then .error .emptyNodeList
  else
    let preferredPass : Except CnsErr (List DatastoreInfo × DSTopoMap) :=
      match topologyRequirement with
      | some tr =>
        match tr.preferred with
        | some preferred => getSharedDatastoresInTopology acc zr allNodes preferred
        | none => .ok ([], [])
      | none => .ok ([], [])
    match preferredPass with
    | .error e => .error e
    | .ok (sharedDatastores, m) =>
      if sharedDatastores.length = 0 then
        match topologyRequirement with
        | some tr =>
          match tr.requisite with
          | some requisite => getSharedDatastoresInTopology acc zr allNodes requisite
          | none => .ok (sharedDatastores, m)
        | none => .ok (sharedDatastores, m)
      else .ok (sharedDatastores, m)

/-! ## Membership listener (`nodeAdd` / `nodeDelete`, nodes.go:56-78) -/

/-- An object delivered to the informer callbacks (`obj interface{}`):
either a `*v1.Node` carrying `Spec.ProviderID` and `Name`, a nil
`*v1.Node`, or some unrecognized object. -/
inductive EventObj where
  | node (providerID : String) (name : String)
  | nilNode
  | other (desc : String)
deriving DecidableEq, Repr

/-- Whether the type assertion `obj.(*v1.Node)` yields a usable node
(`node != nil && ok` at nodes.go:57-58). -/
def isUsableNode : EventObj → Bool
  | .node _ _ => true
  | .nilNode => false
  | .other _ => false

/-- The node registry held by the cns node manager: name to VM handle. -/
abbrev Registry := List (String × VM)

/-- `nodeAdd` (nodes.go:56-66): drop unusable objects, call the manager's
`RegisterNode` with the UUID extracted from the provider ID and the node
name, and on failure only log, keeping the previous registry. The
callback returns a `Registry`, never an error: nothing propagates to the
event source. `getUUID` models `common.GetUUIDFromProviderID` and
`register` the manager's `RegisterNode`, both outside this file's source. -/
def nodeAdd (getUUID : String → String)
    (register : String → String → Registry → Except String Registry)
    (obj : EventObj) (reg : Registry) : Registry :=
  match obj with
  | .node providerID name =>
    match register (getUUID providerID) name reg with
    | .ok reg2 => reg2
    | .error _ => reg
  | _ => reg

/-- `nodeDelete` (nodes.go:68-78): drop unusable objects, call the
manager's `UnregisterNode` with the node name, and on failure only log. -/
def nodeDelete (unregister : String → Registry → Except String Registry)
    (obj : EventObj) (reg : Registry) : Registry :=
  match obj with
  | .node _ name =>
    match unregister name reg with
    | .ok reg2 => reg2
    | .error _ => reg
  | _ => reg

/-! ## Helper lemmas on the intersection engine -/

theorem intersectByUrl_sublist (shared accessible : List DatastoreInfo) :
    (intersectByUrl shared accessible).Sublist shared :=
  List.filter_sublist shared

theorem intersectByUrl_self (D : List DatastoreInfo) : intersectByUrl D D = D := by
  unfold intersectByUrl
  apply List.filter_eq_self.mpr
  intro a ha
  simp only [List.any_eq_true]
  exact ⟨a, ha, by simp⟩

theorem sharedDSLoop_nil (acc : VM → Except String (List DatastoreInfo))
    (shared : List DatastoreInfo) : sharedDSLoop acc [] shared = .ok shared := rfl

/-- Unfolding the loop step when the running set is still empty (the
first node): the node's accessible set seeds the running set. -/
theorem sharedDSLoop_cons_seed (acc : VM → Except String (List DatastoreInfo))
    (vm : VM) (rest : List VM) (accessible : List DatastoreInfo)
    (hacc : acc vm = .ok accessible) :
    sharedDSLoop acc (vm :: rest) [] =
      if accessible = [] then .error (.noSharedDatastores vm)
      else sharedDSLoop acc rest accessible := by
  simp [sharedDSLoop, hacc, List.isEmpty_iff]

/-- Unfolding the loop step on a non-empty running set: intersect by URL,
then either short-circuit on emptiness or continue. -/
theorem sharedDSLoop_cons_step (acc : VM → Except String (List DatastoreInfo))
    (vm : VM) (rest : List VM) (shared accessible : List DatastoreInfo)
    (hacc : acc vm = .ok accessible) (hsh : shared ≠ []) :
    sharedDSLoop acc (vm :: rest) shared =
      if intersectByUrl shared accessible = [] then .error (.noSharedDatastores vm)
      else sharedDSLoop acc rest (intersectByUrl shared accessible) := by
  simp [sharedDSLoop, hacc, List.isEmpty_iff, hsh]

/-- On a non-empty running set, a successful run of the loop returns a
non-empty sublist of the running set. -/
theorem sharedDSLoop_ok (acc : VM → Except String (List DatastoreInfo)) :
    ∀ (vms : List VM) (shared l : List DatastoreInfo),
      shared ≠ [] → sharedDSLoop acc vms shared = .ok l → l.Sublist shared ∧ l ≠ []
  | [], shared, l, hne, h => by
      simp only [sharedDSLoop, Except.ok.injEq] at h
      subst h
      exact ⟨List.Sublist.refl _, hne⟩
  | vm :: rest, shared, l, hne, h => by
      cases hacc : acc vm with
      | error e =>
          rw [sharedDSLoop, hacc] at h
          cases h
      | ok accessible =>
          rw [sharedDSLoop_cons_step acc vm rest shared accessible hacc hne] at h
          by_cases hemp : intersectByUrl shared accessible = []
          · rw [if_pos hemp] at h
            cases h
          · rw [if_neg hemp] at h
            obtain ⟨hsub, hlnil⟩ := sharedDSLoop_ok acc rest _ l hemp h
            exact ⟨hsub.trans (intersectByUrl_sublist shared accessible), hlnil⟩

/-- A successful run of `GetSharedDatastoresForVMs` on a non-empty node
list decomposes into the first node's fetch seeding the running set. -/
theorem getShared_cons_ok (acc : VM → Except String (List DatastoreInfo))
    (vm : VM) (rest : List VM) (l : List DatastoreInfo)
    (h : GetSharedDatastoresForVMs acc (vm :: rest) = .ok l) :
    ∃ D, acc vm = .ok D ∧ D ≠ [] ∧ sharedDSLoop acc rest D = .ok l := by
  unfold GetSharedDatastoresForVMs at h
  cases hacc : acc vm with
  | error e =>
      rw [sharedDSLoop, hacc] at h
      cases h
  | ok D =>
      rw [sharedDSLoop_cons_seed acc vm rest D hacc] at h
      by_cases hD : D = []
      · rw [if_pos hD] at h
        cases h
      · rw [if_neg hD] at h
        exact ⟨D, rfl, hD, h⟩

/-- When every remaining node reports exactly `D`, the loop keeps `D`. -/
theorem sharedDSLoop_const (acc : VM → Except String (List DatastoreInfo))
    (D : List DatastoreInfo) (hD : D ≠ []) :
    ∀ (vms : List VM), (∀ vm ∈ vms, acc vm = .ok D) →
      sharedDSLoop acc vms D = .ok D
  | [], _ => rfl
  | vm :: rest, hall => by
      rw [sharedDSLoop_cons_step acc vm rest D D (hall vm (List.mem_cons_self vm rest)) hD]
      rw [intersectByUrl_self]
      rw [if_neg hD]
      exact sharedDSLoop_const acc D hD rest
        (fun v hv => hall v (List.mem_cons_of_mem vm hv))

/-! ## Claims C1, C2, C3, C10: the intersection engine -/

/-- C1 (counterexample): the claim says `GetSharedDatastoresForVMs` fails
on every empty node list; in fact, on the empty node list it returns a
successful empty result (nodes.go:219 initializes the shared slice to nil
and nodes.go:246 returns it with a nil error when the loop body never
runs). -/
theorem c1_empty_nodes_counterexample :
    GetSharedDatastoresForVMs (fun _ => Except.ok []) [] = Except.ok [] := rfl

/-- C1 (amended): for every accessor, `GetSharedDatastoresForVMs` on the
empty node list succeeds with the empty datastore list; it never errors
there. The non-empty-node-list precondition is enforced by its callers
(`GetSharedDatastoresInTopology`, `GetSharedDatastoresInK8SCluster`), not
by the intersection engine itself. -/
theorem c1_empty_nodes_ok (acc : VM → Except String (List DatastoreInfo)) :
    GetSharedDatastoresForVMs acc [] = Except.ok [] := rfl

/-- Concrete datastores used to instantiate theorems with hypotheses. -/
def dsA : DatastoreInfo := ⟨"ds:///vmfs/volumes/aaaa/", 1⟩

def dsB : DatastoreInfo := ⟨"ds:///vmfs/volumes/bbbb/", 2⟩

def dsC : DatastoreInfo := ⟨"ds:///vmfs/volumes/cccc/", 3⟩

/-- A concrete accessor: node1 reaches A and B, node2 reaches B and C,
node3 reaches nothing. -/
def accW : VM → Except String (List DatastoreInfo)
  | "node1" => .ok [dsA, dsB]
  | "node2" => .ok [dsB, dsC]
  | _ => .ok []

/-- C1 witness: the amended statement instantiated at a concrete accessor. -/
theorem c1_witness : GetSharedDatastoresForVMs accW [] = Except.ok [] :=
  c1_empty_nodes_ok accW

/-- C2: whenever the running intersection becomes empty after processing a
node, `GetSharedDatastoresForVMs` immediately returns the error naming
that node — the result is the same for every continuation `rest`, so no
further node is processed — and, on any non-empty node list, a successful
result is never the empty sequence. -/
theorem c2_short_circuit_on_empty_intersection :
    (∀ (acc : VM → Except String (List DatastoreInfo)) (vm : VM) (rest : List VM)
        (shared accessible : List DatastoreInfo),
        acc vm = Except.ok accessible →
        (if shared.isEmpty then accessible else intersectByUrl shared accessible) = [] →
        sharedDSLoop acc (vm :: rest) shared =
          Except.error (CnsErr.noSharedDatastores vm)) ∧
    (∀ (acc : VM → Except String (List DatastoreInfo)) (vms : List VM)
        (l : List DatastoreInfo),
        vms ≠ [] → GetSharedDatastoresForVMs acc vms = Except.ok l → l ≠ []) := by
  constructor
  · intro acc vm rest shared accessible hacc hempty
    by_cases hsh : shared = []
    · subst hsh
      rw [sharedDSLoop_cons_seed acc vm rest accessible hacc]
      rw [if_pos (by simpa using hempty)]
    · rw [sharedDSLoop_cons_step acc vm rest shared accessible hacc hsh]
      rw [if_pos (by simpa [List.isEmpty_iff, hsh] using hempty)]
  · intro acc vms l hvms hok
    match vms, hvms with
    | vm :: rest, _ =>
      obtain ⟨D, _, hD, hloop⟩ := getShared_cons_ok acc vm rest l hok
      exact (sharedDSLoop_ok acc rest D l hD hloop).2

/-- C2 witness: with node1 reporting an empty accessible set, the loop
fails at node1 without touching node2; with nodes [node1, node2] the
successful result [B] is non-empty. -/
theorem c2_witness :
    sharedDSLoop accW ["node3", "node2"] [dsA] =
      Except.error (CnsErr.noSharedDatastores "node3") ∧
    ([dsB] : List DatastoreInfo) ≠ [] :=
  ⟨c2_short_circuit_on_empty_intersection.1 accW "node3" ["node2"] [dsA] [] rfl rfl,
   c2_short_circuit_on_empty_intersection.2 accW ["node1", "node2"] [dsB]
     (by decide) (by rfl)⟩

/-- C3: on a non-empty node list where every node's accessor call succeeds
with the same non-empty list `D`, `GetSharedDatastoresForVMs` succeeds and
returns exactly `D` — the same elements in the first node's order. -/
theorem c3_identical_lists_returned_exactly
    (acc : VM → Except String (List DatastoreInfo)) (vms : List VM)
    (D : List DatastoreInfo) (hvms : vms ≠ []) (hD : D ≠ [])
    (hall : ∀ vm ∈ vms, acc vm = Except.ok D) :
    GetSharedDatastoresForVMs acc vms = Except.ok D := by
  match vms, hvms with
  | vm :: rest, _ =>
    unfold GetSharedDatastoresForVMs
    rw [sharedDSLoop_cons_seed acc vm rest D (hall vm (List.mem_cons_self vm rest))]
    rw [if_neg hD]
    exact sharedDSLoop_const acc D hD rest
      (fun v hv => hall v (List.mem_cons_of_mem vm hv))

/-- C3 witness: two nodes both reporting [A, B] yield exactly [A, B]. -/
theorem c3_witness :
    GetSharedDatastoresForVMs (fun _ => Except.ok [dsA, dsB]) ["node1", "node2"] =
      Except.ok [dsA, dsB] :=
  c3_identical_lists_returned_exactly (fun _ => Except.ok [dsA, dsB])
    ["node1", "node2"] [dsA, dsB] (by decide) (by decide) (fun _ _ => rfl)

/-- C10: a successful `GetSharedDatastoresForVMs` run on a non-empty node
list returns a non-empty sublist (subsequence, order preserved) of the
first node's accessible-datastore list: later nodes only filter it. -/
theorem c10_result_sublist_of_first_node
    (acc : VM → Except String (List DatastoreInfo)) (vm : VM) (rest : List VM)
    (D l : List DatastoreInfo) (hacc : acc vm = Except.ok D)
    (hok : GetSharedDatastoresForVMs acc (vm :: rest) = Except.ok l) :
    l.Sublist D ∧ l ≠ [] := by
  obtain ⟨D2, hacc2, hD2, hloop⟩ := getShared_cons_ok acc vm rest l hok
  rw [hacc] at hacc2
  cases hacc2
  exact sharedDSLoop_ok acc rest D l hD2 hloop

/-- C10 witness: on [node1, node2] the result [B] is a non-empty sublist
of node1's list [A, B]. -/
theorem c10_witness : List.Sublist [dsB] [dsA, dsB] ∧ ([dsB] : List DatastoreInfo) ≠ [] :=
  c10_result_sublist_of_first_node accW "node1" ["node2"] [dsA, dsB] [dsB]
    rfl (by rfl)

/-! ## Claims C4-C8: the topology resolver -/

/-- A concrete zone test: node1 sits in zone "z-east", node2 in "z-west". -/
def zrW : VM → String → String → Except String Bool
  | "node1", zoneValue, _ => .ok (zoneValue == "z-east")
  | "node2", zoneValue, _ => .ok (zoneValue == "z-west")
  | _, _, _ => .ok false

/-- A zone test placing no node anywhere. -/
def zrFalse : VM → String → String → Except String Bool :=
  fun _ _ _ => .ok false

/-- Topology segment set selecting zone "z-east". -/
def tEast : Topology := ⟨[(LabelZoneFailureDomain, "z-east")]⟩

/-- Topology segment set selecting zone "z-west". -/
def tWest : Topology := ⟨[(LabelZoneFailureDomain, "z-west")]⟩

/-- The accessible-topology descriptor recorded for zone "z-east". -/
def segEast : List (String × String) := [(LabelZoneFailureDomain, "z-east")]

/-- The accessible-topology descriptor recorded for zone "z-west". -/
def segWest : List (String × String) := [(LabelZoneFailureDomain, "z-west")]

/-- C4: when the preferred pass yields at least one datastore, the
resolver returns exactly the preferred result — for every requisite list,
so the requisite list is never evaluated nor merged in. (The source
consults requisite only under `len(sharedDatastores) == 0`,
nodes.go:184.) -/
theorem c4_preferred_takes_precedence
    (acc : VM → Except String (List DatastoreInfo))
    (zr : VM → String → String → Except String Bool) (allNodes : List VM)
    (preferred : List Topology) (requisite : Option (List Topology))
    (l : List DatastoreInfo) (m : DSTopoMap) (hnodes : allNodes ≠ [])
    (hpref : getSharedDatastoresInTopology acc zr allNodes preferred = Except.ok (l, m))
    (hl : l ≠ []) :
    GetSharedDatastoresInTopology acc zr allNodes
        (some ⟨some preferred, requisite⟩) = Except.ok (l, m) := by
  unfold GetSharedDatastoresInTopology
  rw [if_neg (by simpa [List.length_eq_zero] using hnodes)]
  simp only [hpref]
  rw [if_neg (by simpa [List.length_eq_zero] using hl)]

/-- C4 witness: node1's preferred zone "z-east" yields [A, B]; the result
is the same although a requisite list selecting "z-west" is supplied. -/
theorem c4_witness :
    GetSharedDatastoresInTopology accW zrW ["node1"]
        (some ⟨some [tEast], some [tWest]⟩) =
      Except.ok ([dsA, dsB], [(dsA.url, [segEast]), (dsB.url, [segEast])]) :=
  c4_preferred_takes_precedence accW zrW ["node1"] [tEast] (some [tWest])
    [dsA, dsB] [(dsA.url, [segEast]), (dsB.url, [segEast])]
    (by decide) (by rfl) (by decide)

/-- C5: with only a requisite list of two segment sets, where the "z-east"
partition (node1) yields {A, B} and the "z-west" partition (node2) yields
{B, C}, the resolver returns A, B twice (once per set) and C without
deduplication, and B's URL maps to both segment descriptors in insertion
order. -/
theorem c5_requisite_two_sets_no_dedup :
    GetSharedDatastoresInTopology accW zrW ["node1", "node2"]
        (some ⟨none, some [tEast, tWest]⟩) =
      Except.ok ([dsA, dsB, dsB, dsC],
        [(dsA.url, [segEast]), (dsB.url, [segEast, segWest]), (dsC.url, [segWest])]) ∧
    lookupTopo [(dsA.url, [segEast]), (dsB.url, [segEast, segWest]), (dsC.url, [segWest])]
        dsB.url = [segEast, segWest] :=
  ⟨rfl, rfl⟩

/-- C6: on an empty node snapshot the resolver fails with the empty-list
error before any partitioning or intersection — for every accessor, zone
test and topology requirement — and returns no datastores and no map. -/
theorem c6_empty_snapshot_errors (acc : VM → Except String (List DatastoreInfo))
    (zr : VM → String → String → Except String Bool)
    (topologyRequirement : Option TopologyRequirement) :
    GetSharedDatastoresInTopology acc zr [] topologyRequirement =
      Except.error CnsErr.emptyNodeList := rfl

/-- C6 witness: the statement instantiated at concrete oracles. -/
theorem c6_witness :
    GetSharedDatastoresInTopology accW zrW [] none =
      Except.error CnsErr.emptyNodeList :=
  c6_empty_snapshot_errors accW zrW none

/-- C7: a topology segment set whose zone/region partition is empty
contributes no datastores and no map entries and causes no failure: the
loop step on that set is the identity, and processing continues with the
remaining sets. -/
theorem c7_empty_partition_skipped (acc : VM → Except String (List DatastoreInfo))
    (zr : VM → String → String → Except String Bool) (allNodes : List VM)
    (t : Topology) (rest : List Topology) (shared : List DatastoreInfo) (m : DSTopoMap)
    (hpart : getNodesInZoneRegion zr (getSegment t.segments LabelZoneFailureDomain)
        (getSegment t.segments LabelRegionFailureDomain) allNodes = Except.ok []) :
    topoLoop acc zr allNodes (t :: rest) shared m =
      topoLoop acc zr allNodes rest shared m := by
  simp only [topoLoop, hpart, GetSharedDatastoresForVMs, sharedDSLoop,
    List.foldl_nil, List.append_nil]

/-- C7 witness: with a zone test placing no node anywhere, the step for a
segment set is skipped and the remaining (empty) list returns the
accumulators unchanged. -/
theorem c7_witness :
    topoLoop accW zrFalse ["node1"] [tEast] [dsA] [(dsA.url, [segEast])] =
      topoLoop accW zrFalse ["node1"] [] [dsA] [(dsA.url, [segEast])] :=
  c7_empty_partition_skipped accW zrFalse ["node1"] tEast [] [dsA]
    [(dsA.url, [segEast])] (by rfl)

/-- C8: on a non-empty node snapshot with neither a preferred nor a
requisite list (nil requirement, or both lists nil), the resolver
succeeds with the empty datastore sequence and the empty topology map. -/
theorem c8_no_lists_empty_success (acc : VM → Except String (List DatastoreInfo))
    (zr : VM → String → String → Except String Bool) (allNodes : List VM)
    (h : allNodes ≠ []) :
    GetSharedDatastoresInTopology acc zr allNodes none = Except.ok ([], []) ∧
    GetSharedDatastoresInTopology acc zr allNodes (some ⟨none, none⟩) =
      Except.ok ([], []) := by
  constructor <;>
  · unfold GetSharedDatastoresInTopology
    rw [if_neg (by simpa [List.length_eq_zero] using h)]
    rfl

/-- C8 witness: one registered node, no topology lists supplied. -/
theorem c8_witness :
    GetSharedDatastoresInTopology accW zrW ["node1"] none = Except.ok ([], []) ∧
    GetSharedDatastoresInTopology accW zrW ["node1"] (some ⟨none, none⟩) =
      Except.ok ([], []) :=
  c8_no_lists_empty_success accW zrW ["node1"] (by decide)

/-! ## Claim C9: the membership listener -/

/-- C9: the informer callbacks are total functions into `Registry` — no
error component exists to propagate to the event source — and: an object
that is not a usable node leaves the registry unchanged in both
callbacks (logged and dropped), and a failing `RegisterNode` or
`UnregisterNode` call also leaves the registry unchanged (only logged). -/
theorem c9_listener_best_effort (getUUID : String → String)
    (register : String → String → Registry → Except String Registry)
    (unregister : String → Registry → Except String Registry)
    (obj : EventObj) (reg : Registry) :
    (isUsableNode obj = false →
      nodeAdd getUUID register obj reg = reg ∧ nodeDelete unregister obj reg = reg) ∧
    (∀ providerID name e, obj = EventObj.node providerID name →
      register (getUUID providerID) name reg = Except.error e →
      nodeAdd getUUID register obj reg = reg) ∧
    (∀ providerID name e, obj = EventObj.node providerID name →
      unregister name reg = Except.error e →
      nodeDelete unregister obj reg = reg) := by
  refine ⟨?_, ?_, ?_⟩
  · intro hbad
    cases obj with
    | node providerID name => simp [isUsableNode] at hbad
    | nilNode => exact ⟨rfl, rfl⟩
    | other desc => exact ⟨rfl, rfl⟩
  · intro providerID name e hobj hreg
    subst hobj
    simp [nodeAdd, hreg]
  · intro providerID name e hobj hun
    subst hobj
    simp [nodeDelete, hun]

/-- C9 witness: a non-node object is dropped by both callbacks, and a
failing register or unregister call leaves the registry unchanged. -/
theorem c9_witness :
    nodeAdd id (fun _ _ _ => Except.error "resolve failed") (EventObj.other "pod")
        [("n0", "vm0")] = [("n0", "vm0")] ∧
    nodeAdd id (fun _ _ _ => Except.error "resolve failed")
        (EventObj.node "vsphere://42" "n1") [("n0", "vm0")] = [("n0", "vm0")] ∧
    nodeDelete (fun _ _ => Except.error "not found")
        (EventObj.node "vsphere://42" "n1") [("n0", "vm0")] = [("n0", "vm0")] :=
  ⟨((c9_listener_best_effort id (fun _ _ _ => Except.error "resolve failed")
      (fun _ _ => Except.error "not found") (EventObj.other "pod")
      [("n0", "vm0")]).1 rfl).1,
   (c9_listener_best_effort id (fun _ _ _ => Except.error "resolve failed")
      (fun _ _ => Except.error "not found") (EventObj.node "vsphere://42" "n1")
      [("n0", "vm0")]).2.1 "vsphere://42" "n1" "resolve failed" rfl rfl,
   (c9_listener_best_effort id (fun _ _ _ => Except.error "resolve failed")
      (fun _ _ => Except.error "not found") (EventObj.node "vsphere://42" "n1")
      [("n0", "vm0")]).2.2 "vsphere://42" "n1" "not found" rfl rfl⟩

end VSphereCSI
